import Mathlib

/-!
Shallow embedding of the peach-monitor core (src/main.rs): the nest keyed
store as seen through the `get`/`set` calls the program makes, the traffic
probe report, and the four core operations `Traffic::get`,
`Thresholds::get`, `set_alert_flags` and `update_transmission_totals`,
plus the daemon loop of `main`.

Conventions of the embedding:
* `u64` values are `Nat`; additions are taken `% 2 ^ 64` where the Rust
  code performs 64-bit addition.
* A store operation returns `Except MErr Unit × Store`: the second
  component is the state of the underlying keyed store when the operation
  returns or panics, so partial writes are observable.  A Rust `unwrap`
  panic is modelled as `Except.error` (the process dies; the store file
  keeps whatever was already written).
* The store's environment is part of `Store`: `data` is the current
  key/value contents (a missing key is `none`, which `nest` reports as a
  `get` error), and `setOk` says whether a `set` on a given key succeeds
  or fails with a store I/O error.
* The probe (`probes::network::read()`) is passed in as the report it
  returned: an ordered list of `(interface name, counters)` pairs.
-/

namespace PeachMonitor

/-- Values of the nest store that the program reads and writes:
unsigned 64-bit integers (`Value::Uint`) and booleans (`Value::Bool`). -/
inductive Value where
  | uint : Nat → Value
  | bool : Bool → Value
deriving DecidableEq

/-- A hierarchical store key, e.g. `["net", "traffic", "rx"]`. -/
abbrev Key := List String

/-- The keyed store together with its I/O environment: `data` holds the
current contents (`none` = key absent, surfaced by `nest` as a `get`
error), and `setOk k` says whether a `set` on key `k` succeeds. -/
structure Store where
  data : Key → Option Value
  setOk : Key → Bool

/-- Errors of one invocation: a store get/set failure (or an `unwrap`
panic on one), or a probe/lookup failure. -/
inductive MErr where
  | store
  | probe
deriving DecidableEq

/-- Reading a key: `store.get(&[...])`, with `none` for a missing key. -/
def Store.get (s : Store) (k : Key) : Option Value := s.data k

/-- Writing a key: `store.set(&[...], &value)`.  On success the key is
created or overwritten; on an I/O failure the store is unchanged.  A
`set` never deletes a key. -/
def Store.set (s : Store) (k : Key) (v : Value) : Except MErr Unit × Store :=
  if s.setOk k then
    (Except.ok (), { s with data := fun k2 => if k2 = k then some v else s.get k2 })
  else
    (Except.error MErr.store, s)

/-- Sequencing of fallible store operations: Rust `?` and `unwrap`
both stop the function at the first error, keeping the store state
reached so far. -/
def andThen (r : Except MErr Unit × Store) (f : Store → Except MErr Unit × Store) :
    Except MErr Unit × Store :=
  match r with
  | (Except.ok _, s) => f s
  | (Except.error e, s) => (Except.error e, s)

def trafficRx : Key := ["net", "traffic", "rx"]

def trafficTx : Key := ["net", "traffic", "tx"]

def thRxWarn : Key := ["net", "thresholds", "rx_warn"]

def thTxWarn : Key := ["net", "thresholds", "tx_warn"]

def thRxCrit : Key := ["net", "thresholds", "rx_crit"]

def thTxCrit : Key := ["net", "thresholds", "tx_crit"]

def alRxWarn : Key := ["net", "alerts", "rx_warn_alert"]

def alTxWarn : Key := ["net", "alerts", "tx_warn_alert"]

def alRxCrit : Key := ["net", "alerts", "rx_crit_alert"]

def alTxCrit : Key := ["net", "alerts", "tx_crit_alert"]

/-- Per-interface counters of the probe's report (`data.received`,
`data.transmitted`), both `u64`. -/
structure IfaceData where
  received : Nat
  transmitted : Nat
deriving DecidableEq

/-- The report of `probes::network::read()`: an ordered collection of
`(interface name, counters)` pairs. -/
abbrev NetworkReport := List (String × IfaceData)

/-- Received and transmitted network traffic (bytes), `struct Traffic`. -/
structure Traffic where
  rx : Nat
  tx : Nat
deriving DecidableEq

/-- `Traffic::get`, after the probe read: scan the report in order and
return the counters of the first entry whose name matches `iface`;
`none` when no entry matches. -/
def Traffic.get (interfaces : NetworkReport) (iface : String) : Option Traffic :=
  match interfaces with
  | [] => none
  | (interface, data) :: rest =>
    if interface = iface then some { rx := data.received, tx := data.transmitted }
    else Traffic.get rest iface

/-- Warning and critical network traffic thresholds (bytes),
`struct Thresholds`. -/
structure Thresholds where
  rx_warn : Nat
  tx_warn : Nat
  rx_crit : Nat
  tx_crit : Nat
deriving DecidableEq

/-- `Thresholds::get`: read the four threshold keys, each defaulting to
`Value::Uint(0)` when the `get` fails (`unwrap_or`); push each value
that is a `Uint` onto a vector; then build the struct from indices
0..3 of that vector.  Indexing past the end of the vector is a Rust
panic, modelled as `none`. -/
def Thresholds.get (store : Store) : Option Thresholds :=
  let thresholds : List Nat := []
  let rx_warn_val := (store.get thRxWarn).getD (Value.uint 0)
  let thresholds := match rx_warn_val with
    | Value.uint rx => thresholds ++ [rx]
    | _ => thresholds
  let tx_warn_val := (store.get thTxWarn).getD (Value.uint 0)
  let thresholds := match tx_warn_val with
    | Value.uint tx => thresholds ++ [tx]
    | _ => thresholds
  let rx_crit_val := (store.get thRxCrit).getD (Value.uint 0)
  let thresholds := match rx_crit_val with
    | Value.uint rx => thresholds ++ [rx]
    | _ => thresholds
  let tx_crit_val := (store.get thTxCrit).getD (Value.uint 0)
  let thresholds := match tx_crit_val with
    | Value.uint tx => thresholds ++ [tx]
    | _ => thresholds
  match thresholds.get? 0, thresholds.get? 1, thresholds.get? 2, thresholds.get? 3 with
  | some a, some b, some c, some d =>
    some { rx_warn := a, tx_warn := b, rx_crit := c, tx_crit := d }
  | _, _, _, _ => none

/-- First half of `set_alert_flags` (lines 107-127): read the stored rx
total (`unwrap` panics when the key is absent); when it is a `Uint`,
write the rx warning flag and then the rx critical flag from strict
comparisons against the thresholds, each `set` `unwrap`ped so a failing
write panics; when it is some other variant, the `if let` falls through
and nothing is written. -/
def set_rx_alert_flags (store : Store) (thresholds : Thresholds) :
    Except MErr Unit × Store :=
  match store.get trafficRx with
  | none => (Except.error MErr.store, store)
  | some rx_stored =>
    match rx_stored with
    | Value.uint rx =>
      andThen
        (if rx > thresholds.rx_warn then store.set alRxWarn (Value.bool true)
         else store.set alRxWarn (Value.bool false))
        (fun s1 =>
          if rx > thresholds.rx_crit then s1.set alRxCrit (Value.bool true)
          else s1.set alRxCrit (Value.bool false))
    | _ => (Except.ok (), store)

/-- Second half of `set_alert_flags` (lines 129-149): the same for the
stored tx total and the tx warning/critical flags. -/
def set_tx_alert_flags (store : Store) (thresholds : Thresholds) :
    Except MErr Unit × Store :=
  match store.get trafficTx with
  | none => (Except.error MErr.store, store)
  | some tx_stored =>
    match tx_stored with
    | Value.uint tx =>
      andThen
        (if tx > thresholds.tx_warn then store.set alTxWarn (Value.bool true)
         else store.set alTxWarn (Value.bool false))
        (fun s1 =>
          if tx > thresholds.tx_crit then s1.set alTxCrit (Value.bool true)
          else s1.set alTxCrit (Value.bool false))
    | _ => (Except.ok (), store)

/-- `set_alert_flags`: the rx half runs first; a panic in it stops the
function (the tx half never runs), otherwise the tx half runs on the
store as left by the rx writes. -/
def set_alert_flags (store : Store) (thresholds : Thresholds) :
    Except MErr Unit × Store :=
  andThen (set_rx_alert_flags store thresholds)
    (fun s2 => set_tx_alert_flags s2 thresholds)

/-- `update_transmission_totals`: read the stored totals, defaulting each
missing key to `Value::Uint(u64::MIN)`; look up `"wlan0"` in the probe
report (`unwrap` panics when absent); then, for each stored value that
is a `Uint`, write back the stored value plus the sample, the rx key
first, each write's error propagated by `?`. -/
def update_transmission_totals (store : Store) (network : NetworkReport) :
    Except MErr Unit × Store :=
  let rx_stored := match store.get trafficRx with
    | some rx => rx
    | none => Value.uint 0
  let tx_stored := match store.get trafficTx with
    | some tx => tx
    | none => Value.uint 0
  match Traffic.get network "wlan0" with
  | none => (Except.error MErr.probe, store)
  | some traffic =>
    let afterRx :=
      match rx_stored with
      | Value.uint rx =>
        let rx_total := (rx + traffic.rx) % 2 ^ 64
        store.set trafficRx (Value.uint rx_total)
      | _ => (Except.ok (), store)
    andThen afterRx (fun s1 =>
      match tx_stored with
      | Value.uint tx =>
        let tx_total := (tx + traffic.tx) % 2 ^ 64
        s1.set trafficTx (Value.uint tx_total)
      | _ => (Except.ok (), s1))

/-- One iteration body of the daemon loop in `main`: load the thresholds,
then evaluate and persist the alert flags. -/
def daemonStep (store : Store) : Except MErr Unit × Store :=
  match Thresholds.get store with
  | none => (Except.error MErr.store, store)
  | some thresholds => set_alert_flags store thresholds

/-- Outcome of running the daemon loop: graceful exit (store and number
of completed iterations), a panic during some iteration, or fuel
exhaustion (a modelling artifact for the unbounded `while`). -/
inductive DaemonResult where
  | finished : Store → Nat → DaemonResult
  | crashed : MErr → Store → Nat → DaemonResult
  | fuelOut : Store → Nat → DaemonResult

/-- The daemon `while` loop of `main`: `running` gives the value the
`AtomicBool` cancellation flag is observed to hold at the k-th
iteration-boundary check (the signal handler is the only writer and only
ever stores `false`).  While the flag reads `true`, run one iteration
body and sleep; when it reads `false`, exit gracefully. -/
def daemonLoop (running : Nat → Bool) : Nat → Nat → Store → DaemonResult
  | 0, k, s => DaemonResult.fuelOut s k
  | fuel + 1, k, s =>
    if running k then
      match daemonStep s with
      | (Except.ok _, s1) => daemonLoop running fuel (k + 1) s1
      | (Except.error e, s1) => DaemonResult.crashed e s1 k
    else DaemonResult.finished s k

/-- `n` consecutive successful daemon iteration bodies; `none` when some
iteration fails. -/
def iterSteps : Nat → Store → Option Store
  | 0, s => some s
  | n + 1, s =>
    match daemonStep s with
    | (Except.ok _, s1) => iterSteps n s1
    | (Except.error _, _) => none

/-- A store on which the rx half of `set_alert_flags` succeeds without
changing anything: the stored rx total exists, and when it is a `Uint`
the two rx flag keys already hold the decided comparisons and their
writes succeed. -/
def rxFixed (s : Store) (th : Thresholds) : Prop :=
  match s.get trafficRx with
  | none => False
  | some (Value.uint rx) =>
    s.setOk alRxWarn = true ∧ s.setOk alRxCrit = true ∧
    s.get alRxWarn = some (Value.bool (decide (rx > th.rx_warn))) ∧
    s.get alRxCrit = some (Value.bool (decide (rx > th.rx_crit)))
  | some (Value.bool _) => True

/-- The tx counterpart of `rxFixed`. -/
def txFixed (s : Store) (th : Thresholds) : Prop :=
  match s.get trafficTx with
  | none => False
  | some (Value.uint tx) =>
    s.setOk alTxWarn = true ∧ s.setOk alTxCrit = true ∧
    s.get alTxWarn = some (Value.bool (decide (tx > th.tx_warn))) ∧
    s.get alTxCrit = some (Value.bool (decide (tx > th.tx_crit)))
  | some (Value.bool _) => True

/-- Whether an optional store value is absent or holds a `Uint`
(the shapes on which the vector built by `Thresholds::get` grows). -/
def uintOrAbsent : Option Value → Bool
  | none => true
  | some (Value.uint _) => true
  | some (Value.bool _) => false

/-- The unsigned integer a threshold read yields: the stored `Uint`, or
0 when the key is absent. -/
def uintD : Option Value → Nat
  | some (Value.uint n) => n
  | _ => 0

/-- The relation C9 asserts between a store and the store a core
operation leaves behind: neither totals key is deleted, and a totals key
holding an unsigned integer still holds one at least as large. -/
def TotalsMono (s s2 : Store) : Prop :=
  (∀ v, s.get trafficRx = some v → ∃ v2, s2.get trafficRx = some v2) ∧
  (∀ r, s.get trafficRx = some (Value.uint r) →
    ∃ r2, s2.get trafficRx = some (Value.uint r2) ∧ r ≤ r2) ∧
  (∀ v, s.get trafficTx = some v → ∃ v2, s2.get trafficTx = some v2) ∧
  (∀ x, s.get trafficTx = some (Value.uint x) →
    ∃ x2, s2.get trafficTx = some (Value.uint x2) ∧ x ≤ x2)

/-! Concrete inputs used to instantiate the theorems (scenario A of the
spec and small variations). -/

/-- A probe report in which `"wlan0"` reports 150 bytes received and 50
transmitted. -/
def wNetwork : NetworkReport := [("wlan0", { received := 150, transmitted := 50 })]

/-- A probe report in which `"wlan0"` does not appear. -/
def wNetworkEth : NetworkReport := [("eth0", { received := 5, transmitted := 5 })]

/-- A store with totals rx = 10, tx = 20, no other keys, all writes
succeeding. -/
def wStoreTotals : Store :=
  { data := fun k =>
      if k = trafficRx then some (Value.uint 10)
      else if k = trafficTx then some (Value.uint 20)
      else none,
    setOk := fun _ => true }

/-- A store with totals rx = 150, tx = 50, no other keys, all writes
succeeding. -/
def wStoreA : Store :=
  { data := fun k =>
      if k = trafficRx then some (Value.uint 150)
      else if k = trafficTx then some (Value.uint 50)
      else none,
    setOk := fun _ => true }

/-- Scenario A thresholds. -/
def wThresholds : Thresholds :=
  { rx_warn := 100, tx_warn := 100, rx_crit := 1000, tx_crit := 1000 }

/-- A store with no keys at all, all writes succeeding. -/
def wStoreEmpty : Store := { data := fun _ => none, setOk := fun _ => true }

/-- A store whose rx totals key is absent while the tx totals key holds
20, all writes succeeding. -/
def wStoreTxOnly : Store :=
  { data := fun k => if k = trafficTx then some (Value.uint 20) else none,
    setOk := fun _ => true }

/-- A store whose `rx_warn` threshold key holds a boolean instead of an
unsigned integer. -/
def wStoreBadThreshold : Store :=
  { data := fun k => if k = thRxWarn then some (Value.bool true) else none,
    setOk := fun _ => true }

/-- A store with both totals present on which every write to the rx
totals key fails with a store error. -/
def wStoreRxWriteFails : Store :=
  { data := fun k =>
      if k = trafficRx then some (Value.uint 10)
      else if k = trafficTx then some (Value.uint 20)
      else none,
    setOk := fun k => decide (k ≠ trafficRx) }

/-- A cancellation-flag trace that reads `true` at the check before the
first iteration and `false` from the second check on. -/
def wRunningOnce : Nat → Bool := fun k => decide (k < 1)

/-- A cancellation-flag trace on which the signal never arrives. -/
def wRunningForever : Nat → Bool := fun _ => true

/-! Helper lemmas about the store primitives. -/

@[simp]
theorem andThen_ok (s : Store) (u : Unit) (f : Store → Except MErr Unit × Store) :
    andThen (Except.ok u, s) f = f s := rfl

@[simp]
theorem andThen_error (e : MErr) (s : Store) (f : Store → Except MErr Unit × Store) :
    andThen (Except.error e, s) f = (Except.error e, s) := rfl

theorem Store.set_of_setOk (s : Store) (k : Key) (v : Value) (h : s.setOk k = true) :
    s.set k v =
      (Except.ok (), { s with data := fun k2 => if k2 = k then some v else s.get k2 }) := by
  simp [Store.set, h]

theorem Store.set_of_fail (s : Store) (k : Key) (v : Value) (h : s.setOk k = false) :
    s.set k v = (Except.error MErr.store, s) := by
  simp [Store.set, h]

@[simp]
theorem Store.setOk_set (s : Store) (k k2 : Key) (v : Value) :
    ((s.set k v).2).setOk k2 = s.setOk k2 := by
  unfold Store.set
  by_cases h : s.setOk k <;> simp [h]

theorem Store.get_set_2 (s : Store) (k k2 : Key) (v : Value) (h : s.setOk k = true) :
    ((s.set k v).2).get k2 = if k2 = k then some v else s.get k2 := by
  simp [Store.set, h, Store.get]

/-- Writing back a value the key already holds leaves the store unchanged. -/
theorem Store.set_self (s : Store) (k : Key) (v : Value) (hok : s.setOk k = true)
    (hv : s.get k = some v) : s.set k v = (Except.ok (), s) := by
  have hdata : (fun k2 => if k2 = k then some v else s.get k2) = s.data := by
    funext k2
    by_cases h : k2 = k
    · subst h
      simp only [if_pos rfl]
      exact hv.symm
    · simp only [if_neg h]
      rfl
  simp [Store.set, hok, hdata]

@[simp]
theorem Store.get_set_ne (s : Store) (k k2 : Key) (v : Value) (h : k2 ≠ k) :
    ((s.set k v).2).get k2 = s.get k2 := by
  unfold Store.set
  by_cases o : s.setOk k = true <;> simp [o, Store.get, h]

/-- In the source, each flag write is an if/else on the comparison with
`Value::Bool(true)` in one branch and `Value::Bool(false)` in the other;
that is one write of the decided comparison. -/
theorem ite_set_bool (c : Prop) [Decidable c] (s : Store) (k : Key) :
    (if c then s.set k (Value.bool true) else s.set k (Value.bool false))
      = s.set k (Value.bool (decide c)) := by
  by_cases hc : c <;> simp [hc]

@[simp]
theorem Store.get_mk (d : Key → Option Value) (o : Key → Bool) (k : Key) :
    (Store.mk d o).get k = d k := rfl

@[simp]
theorem Store.setOk_mk (d : Key → Option Value) (o : Key → Bool) (k : Key) :
    (Store.mk d o).setOk k = o k := rfl

/-! The ten keys the program touches are pairwise distinct; the
disequalities that show up when a read is pushed through a write. -/

@[simp] theorem trafficRx_ne_alRxWarn : trafficRx ≠ alRxWarn := by decide

@[simp] theorem trafficRx_ne_alRxCrit : trafficRx ≠ alRxCrit := by decide

@[simp] theorem trafficRx_ne_alTxWarn : trafficRx ≠ alTxWarn := by decide

@[simp] theorem trafficRx_ne_alTxCrit : trafficRx ≠ alTxCrit := by decide

@[simp] theorem trafficTx_ne_alRxWarn : trafficTx ≠ alRxWarn := by decide

@[simp] theorem trafficTx_ne_alRxCrit : trafficTx ≠ alRxCrit := by decide

@[simp] theorem trafficTx_ne_alTxWarn : trafficTx ≠ alTxWarn := by decide

@[simp] theorem trafficTx_ne_alTxCrit : trafficTx ≠ alTxCrit := by decide

@[simp] theorem trafficRx_ne_trafficTx : trafficRx ≠ trafficTx := by decide

@[simp] theorem trafficTx_ne_trafficRx : trafficTx ≠ trafficRx := by decide

@[simp] theorem alRxWarn_ne_alRxCrit : alRxWarn ≠ alRxCrit := by decide

@[simp] theorem alRxCrit_ne_alRxWarn : alRxCrit ≠ alRxWarn := by decide

@[simp] theorem alRxWarn_ne_alTxWarn : alRxWarn ≠ alTxWarn := by decide

@[simp] theorem alRxWarn_ne_alTxCrit : alRxWarn ≠ alTxCrit := by decide

@[simp] theorem alRxCrit_ne_alTxWarn : alRxCrit ≠ alTxWarn := by decide

@[simp] theorem alRxCrit_ne_alTxCrit : alRxCrit ≠ alTxCrit := by decide

@[simp] theorem alTxWarn_ne_alTxCrit : alTxWarn ≠ alTxCrit := by decide

@[simp] theorem alTxCrit_ne_alTxWarn : alTxCrit ≠ alTxWarn := by decide

/-! Behaviour of the two halves of `set_alert_flags`: they never touch
`setOk`, they write only their own two alert keys, a successful run
leaves the store at a fixed point of the half, and a store at the fixed
point is left unchanged. -/

theorem set_rx_alert_flags_setOk (s : Store) (th : Thresholds) (k : Key) :
    ((set_rx_alert_flags s th).2).setOk k = s.setOk k := by
  unfold set_rx_alert_flags
  rcases hv : s.get trafficRx with _ | v
  · simp [hv]
  · cases v with
    | uint rx =>
      simp only [hv, ite_set_bool]
      by_cases o1 : s.setOk alRxWarn = true <;> by_cases o2 : s.setOk alRxCrit = true <;>
        simp [Store.set, andThen, o1, o2]
    | bool b => simp [hv]

theorem set_tx_alert_flags_setOk (s : Store) (th : Thresholds) (k : Key) :
    ((set_tx_alert_flags s th).2).setOk k = s.setOk k := by
  unfold set_tx_alert_flags
  rcases hv : s.get trafficTx with _ | v
  · simp [hv]
  · cases v with
    | uint tx =>
      simp only [hv, ite_set_bool]
      by_cases o1 : s.setOk alTxWarn = true <;> by_cases o2 : s.setOk alTxCrit = true <;>
        simp [Store.set, andThen, o1, o2]
    | bool b => simp [hv]

theorem set_rx_alert_flags_frame (s : Store) (th : Thresholds) (k : Key)
    (hk1 : k ≠ alRxWarn) (hk2 : k ≠ alRxCrit) :
    ((set_rx_alert_flags s th).2).get k = s.get k := by
  unfold set_rx_alert_flags
  rcases hv : s.get trafficRx with _ | v
  · simp [hv]
  · cases v with
    | uint rx =>
      simp only [hv, ite_set_bool]
      by_cases o1 : s.setOk alRxWarn = true <;> by_cases o2 : s.setOk alRxCrit = true <;>
        simp [Store.set, Store.get, andThen, o1, o2, hk1, hk2]
    | bool b => simp [hv]

theorem set_tx_alert_flags_frame (s : Store) (th : Thresholds) (k : Key)
    (hk1 : k ≠ alTxWarn) (hk2 : k ≠ alTxCrit) :
    ((set_tx_alert_flags s th).2).get k = s.get k := by
  unfold set_tx_alert_flags
  rcases hv : s.get trafficTx with _ | v
  · simp [hv]
  · cases v with
    | uint tx =>
      simp only [hv, ite_set_bool]
      by_cases o1 : s.setOk alTxWarn = true <;> by_cases o2 : s.setOk alTxCrit = true <;>
        simp [Store.set, Store.get, andThen, o1, o2, hk1, hk2]
    | bool b => simp [hv]

theorem rxFixed_congr (a b : Store) (th : Thresholds)
    (e0 : b.get trafficRx = a.get trafficRx)
    (e1 : b.get alRxWarn = a.get alRxWarn) (e2 : b.get alRxCrit = a.get alRxCrit)
    (e3 : b.setOk alRxWarn = a.setOk alRxWarn) (e4 : b.setOk alRxCrit = a.setOk alRxCrit)
    (hf : rxFixed a th) : rxFixed b th := by
  unfold rxFixed at hf ⊢
  simp only [e0, e1, e2, e3, e4]
  exact hf

theorem set_rx_alert_flags_ok (s t : Store) (th : Thresholds)
    (h : set_rx_alert_flags s th = (Except.ok (), t)) : rxFixed t th := by
  unfold set_rx_alert_flags at h
  rcases hv : s.get trafficRx with _ | v
  · simp [hv] at h
  · cases v with
    | uint rx =>
      simp only [hv, ite_set_bool] at h
      by_cases o1 : s.setOk alRxWarn = true
      · by_cases o2 : s.setOk alRxCrit = true
        · simp only [Store.get] at hv
          simp [Store.set, andThen, o1, o2, Prod.mk.injEq] at h
          subst h
          simp [rxFixed, Store.get, hv, o1, o2]
        · simp [Store.set, andThen, o1, o2] at h
      · simp [Store.set, andThen, o1] at h
    | bool b =>
      simp only [hv] at h
      simp only [Prod.mk.injEq, true_and] at h
      subst h
      simp [rxFixed, hv]

theorem set_tx_alert_flags_ok (s t : Store) (th : Thresholds)
    (h : set_tx_alert_flags s th = (Except.ok (), t)) : txFixed t th := by
  unfold set_tx_alert_flags at h
  rcases hv : s.get trafficTx with _ | v
  · simp [hv] at h
  · cases v with
    | uint tx =>
      simp only [hv, ite_set_bool] at h
      by_cases o1 : s.setOk alTxWarn = true
      · by_cases o2 : s.setOk alTxCrit = true
        · simp only [Store.get] at hv
          simp [Store.set, andThen, o1, o2, Prod.mk.injEq] at h
          subst h
          simp [txFixed, Store.get, hv, o1, o2]
        · simp [Store.set, andThen, o1, o2] at h
      · simp [Store.set, andThen, o1] at h
    | bool b =>
      simp only [hv] at h
      simp only [Prod.mk.injEq, true_and] at h
      subst h
      simp [txFixed, hv]

theorem set_rx_alert_flags_of_fixed (s : Store) (th : Thresholds)
    (h : rxFixed s th) : set_rx_alert_flags s th = (Except.ok (), s) := by
  unfold rxFixed at h
  rcases hv : s.get trafficRx with _ | v
  · simp [hv] at h
  · cases v with
    | uint rx =>
      simp only [hv] at h
      obtain ⟨o1, o2, g1, g2⟩ := h
      unfold set_rx_alert_flags
      simp only [hv, ite_set_bool]
      rw [Store.set_self _ _ _ o1 g1]
      simp only [andThen_ok]
      exact Store.set_self _ _ _ o2 g2
    | bool b =>
      unfold set_rx_alert_flags
      simp [hv]

theorem set_tx_alert_flags_of_fixed (s : Store) (th : Thresholds)
    (h : txFixed s th) : set_tx_alert_flags s th = (Except.ok (), s) := by
  unfold txFixed at h
  rcases hv : s.get trafficTx with _ | v
  · simp [hv] at h
  · cases v with
    | uint tx =>
      simp only [hv] at h
      obtain ⟨o1, o2, g1, g2⟩ := h
      unfold set_tx_alert_flags
      simp only [hv, ite_set_bool]
      rw [Store.set_self _ _ _ o1 g1]
      simp only [andThen_ok]
      exact Store.set_self _ _ _ o2 g2
    | bool b =>
      unfold set_tx_alert_flags
      simp [hv]

/-- Claim C2: for every stored totals value and every thresholds configuration,
`set_alert_flags` sets each of the four alert flags to exactly the strict
comparison total > threshold; a total exactly equal to its threshold
leaves the flag false (the written value is the decided strict
comparison, which at equality is `false`). -/
theorem evaluate_strict_comparisons (s : Store) (th : Thresholds) (rx tx : Nat)
    (hrx : s.get trafficRx = some (Value.uint rx))
    (htx : s.get trafficTx = some (Value.uint tx))
    (h1 : s.setOk alRxWarn = true) (h2 : s.setOk alRxCrit = true)
    (h3 : s.setOk alTxWarn = true) (h4 : s.setOk alTxCrit = true) :
    (set_alert_flags s th).1 = Except.ok () ∧
    ((set_alert_flags s th).2).get alRxWarn = some (Value.bool (decide (rx > th.rx_warn))) ∧
    ((set_alert_flags s th).2).get alRxCrit = some (Value.bool (decide (rx > th.rx_crit))) ∧
    ((set_alert_flags s th).2).get alTxWarn = some (Value.bool (decide (tx > th.tx_warn))) ∧
    ((set_alert_flags s th).2).get alTxCrit = some (Value.bool (decide (tx > th.tx_crit))) := by
  unfold set_alert_flags set_rx_alert_flags set_tx_alert_flags
  simp only [ite_set_bool]
  simp only [Store.get, trafficRx, trafficTx, alRxWarn, alRxCrit, alTxWarn, alTxCrit]
    at hrx htx h1 h2 h3 h4 ⊢
  simp [Store.get, Store.set, andThen, hrx, htx, h1, h2, h3, h4]

/-- Claim C5: evaluation is idempotent: a second run of `set_alert_flags` on
the store left by a successful run, with unchanged thresholds, succeeds
and leaves the store (in particular all four alert flags) exactly as the
first run left it. -/
theorem evaluate_idempotent (s s1 : Store) (th : Thresholds)
    (h : set_alert_flags s th = (Except.ok (), s1)) :
    set_alert_flags s1 th = (Except.ok (), s1) := by
  obtain ⟨t, hrxh, htxh⟩ : ∃ t, set_rx_alert_flags s th = (Except.ok (), t) ∧
      set_tx_alert_flags t th = (Except.ok (), s1) := by
    unfold set_alert_flags at h
    rcases hr : set_rx_alert_flags s th with ⟨r1, t0⟩
    rw [hr] at h
    cases r1 with
    | ok u =>
      cases u
      refine ⟨t0, rfl, ?_⟩
      simpa [andThen] using h
    | error e => simp [andThen] at h
  have frx : rxFixed t th := set_rx_alert_flags_ok s t th hrxh
  have ftx : txFixed s1 th := set_tx_alert_flags_ok t s1 th htxh
  have hs1 : (set_tx_alert_flags t th).2 = s1 := by rw [htxh]
  have frx1 : rxFixed s1 th := by
    refine rxFixed_congr t s1 th ?_ ?_ ?_ ?_ ?_ frx
    · rw [← hs1]; exact set_tx_alert_flags_frame t th trafficRx (by decide) (by decide)
    · rw [← hs1]; exact set_tx_alert_flags_frame t th alRxWarn (by decide) (by decide)
    · rw [← hs1]; exact set_tx_alert_flags_frame t th alRxCrit (by decide) (by decide)
    · rw [← hs1]; exact set_tx_alert_flags_setOk t th alRxWarn
    · rw [← hs1]; exact set_tx_alert_flags_setOk t th alRxCrit
  unfold set_alert_flags
  rw [set_rx_alert_flags_of_fixed s1 th frx1]
  simp only [andThen_ok]
  exact set_tx_alert_flags_of_fixed s1 th ftx

/-- Witness for C2: scenario A of the spec (totals rx = 150, tx = 50,
thresholds 100/100/1000/1000) gives rx_warn_alert = true and the other
three flags false. -/
theorem evaluate_strict_comparisons_witness :
    (set_alert_flags wStoreA wThresholds).1 = Except.ok () ∧
    ((set_alert_flags wStoreA wThresholds).2).get alRxWarn = some (Value.bool true) ∧
    ((set_alert_flags wStoreA wThresholds).2).get alRxCrit = some (Value.bool false) ∧
    ((set_alert_flags wStoreA wThresholds).2).get alTxWarn = some (Value.bool false) ∧
    ((set_alert_flags wStoreA wThresholds).2).get alTxCrit = some (Value.bool false) :=
  evaluate_strict_comparisons wStoreA wThresholds 150 50 (by decide) (by decide)
    (by decide) (by decide) (by decide) (by decide)

/-- Witness for C5: rerunning `set_alert_flags` on the store left by the
scenario-A evaluation changes nothing. -/
theorem evaluate_idempotent_witness :
    set_alert_flags (set_alert_flags wStoreA wThresholds).2 wThresholds
      = (Except.ok (), (set_alert_flags wStoreA wThresholds).2) :=
  evaluate_idempotent wStoreA (set_alert_flags wStoreA wThresholds).2 wThresholds rfl

/-- Claim C1: with stored totals `(rx0, tx0)` and a probe sample `(dr, dt)` for
`"wlan0"`, one call of `update_transmission_totals` stores exactly
`(rx0 + dr, tx0 + dt)`, and a second call with the same sample stores
`(rx0 + 2*dr, tx0 + 2*dt)`: accumulation is additive and not idempotent
(sums are assumed to stay below `2^64`, as the source's unsigned
additions require). -/
theorem accumulate_additive (s : Store) (network : NetworkReport) (rx0 tx0 dr dt : Nat)
    (hrx : s.get trafficRx = some (Value.uint rx0))
    (htx : s.get trafficTx = some (Value.uint tx0))
    (ht : Traffic.get network "wlan0" = some { rx := dr, tx := dt })
    (hokr : s.setOk trafficRx = true) (hokt : s.setOk trafficTx = true)
    (hfr : rx0 + 2 * dr < 2 ^ 64) (hft : tx0 + 2 * dt < 2 ^ 64) :
    (update_transmission_totals s network).1 = Except.ok () ∧
    ((update_transmission_totals s network).2).get trafficRx
      = some (Value.uint (rx0 + dr)) ∧
    ((update_transmission_totals s network).2).get trafficTx
      = some (Value.uint (tx0 + dt)) ∧
    (update_transmission_totals (update_transmission_totals s network).2 network).1
      = Except.ok () ∧
    ((update_transmission_totals (update_transmission_totals s network).2 network).2).get
      trafficRx = some (Value.uint (rx0 + 2 * dr)) ∧
    ((update_transmission_totals (update_transmission_totals s network).2 network).2).get
      trafficTx = some (Value.uint (tx0 + 2 * dt)) := by
  have e1 : (rx0 + dr) % 2 ^ 64 = rx0 + dr := Nat.mod_eq_of_lt (by omega)
  have e2 : (tx0 + dt) % 2 ^ 64 = tx0 + dt := Nat.mod_eq_of_lt (by omega)
  have e3 : (rx0 + dr + dr) % 2 ^ 64 = rx0 + dr + dr := Nat.mod_eq_of_lt (by omega)
  have e4 : (tx0 + dt + dt) % 2 ^ 64 = tx0 + dt + dt := Nat.mod_eq_of_lt (by omega)
  have e5 : rx0 + 2 * dr = rx0 + dr + dr := by omega
  have e6 : tx0 + 2 * dt = tx0 + dt + dt := by omega
  unfold update_transmission_totals
  simp only [Store.get, trafficRx, trafficTx] at hrx htx
  simp only [trafficRx] at hokr
  simp only [trafficTx] at hokt
  simp [Store.get, Store.set, andThen, hrx, htx, ht, hokr, hokt, e1, e2, e3, e4, e5, e6,
    trafficRx, trafficTx]
  omega

/-- Witness for C1: totals (10, 20), sample (150, 50): one call gives
(160, 70), a second gives (310, 120). -/
theorem accumulate_additive_witness :
    (update_transmission_totals wStoreTotals wNetwork).1 = Except.ok () ∧
    ((update_transmission_totals wStoreTotals wNetwork).2).get trafficRx
      = some (Value.uint 160) ∧
    ((update_transmission_totals wStoreTotals wNetwork).2).get trafficTx
      = some (Value.uint 70) ∧
    (update_transmission_totals (update_transmission_totals wStoreTotals wNetwork).2
      wNetwork).1 = Except.ok () ∧
    ((update_transmission_totals (update_transmission_totals wStoreTotals wNetwork).2
      wNetwork).2).get trafficRx = some (Value.uint 310) ∧
    ((update_transmission_totals (update_transmission_totals wStoreTotals wNetwork).2
      wNetwork).2).get trafficTx = some (Value.uint 120) :=
  accumulate_additive wStoreTotals wNetwork 10 20 150 50 (by decide) (by decide)
    (by decide) (by decide) (by decide) (by decide) (by decide)

/-- Claim C3: when either or both totals keys are absent (each key that is
present holding an unsigned integer), `update_transmission_totals`
treats every missing value as 0 and does not fail for that reason: it
succeeds and stores, for each key, the previous value (0 when absent)
plus the sample.  In particular, on a first run with both keys absent
the resulting totals equal the first probe sample. -/
theorem accumulate_missing_totals (s : Store) (network : NetworkReport) (dr dt : Nat)
    (h1 : s.get trafficRx = none ∨ ∃ n, s.get trafficRx = some (Value.uint n))
    (h2 : s.get trafficTx = none ∨ ∃ n, s.get trafficTx = some (Value.uint n))
    (habs : s.get trafficRx = none ∨ s.get trafficTx = none)
    (ht : Traffic.get network "wlan0" = some { rx := dr, tx := dt })
    (hokr : s.setOk trafficRx = true) (hokt : s.setOk trafficTx = true)
    (hfr : uintD (s.get trafficRx) + dr < 2 ^ 64)
    (hft : uintD (s.get trafficTx) + dt < 2 ^ 64) :
    (update_transmission_totals s network).1 = Except.ok () ∧
    ((update_transmission_totals s network).2).get trafficRx
      = some (Value.uint (uintD (s.get trafficRx) + dr)) ∧
    ((update_transmission_totals s network).2).get trafficTx
      = some (Value.uint (uintD (s.get trafficTx) + dt)) := by
  rcases h1 with hrx | ⟨rx0, hrx⟩ <;> rcases h2 with htx | ⟨tx0, htx⟩
  · simp only [hrx, htx, uintD] at hfr hft ⊢
    have e1 : dr % 2 ^ 64 = dr := Nat.mod_eq_of_lt (by omega)
    have e2 : dt % 2 ^ 64 = dt := Nat.mod_eq_of_lt (by omega)
    unfold update_transmission_totals
    simp only [Store.get, trafficRx, trafficTx] at hrx htx
    simp only [trafficRx] at hokr
    simp only [trafficTx] at hokt
    simp [Store.get, Store.set, andThen, hrx, htx, ht, hokr, hokt, e1, e2,
      trafficRx, trafficTx]
    omega
  · simp only [hrx, htx, uintD] at hfr hft ⊢
    have e1 : dr % 2 ^ 64 = dr := Nat.mod_eq_of_lt (by omega)
    have e2 : (tx0 + dt) % 2 ^ 64 = tx0 + dt := Nat.mod_eq_of_lt (by omega)
    unfold update_transmission_totals
    simp only [Store.get, trafficRx, trafficTx] at hrx htx
    simp only [trafficRx] at hokr
    simp only [trafficTx] at hokt
    simp [Store.get, Store.set, andThen, hrx, htx, ht, hokr, hokt, e1, e2,
      trafficRx, trafficTx]
    omega
  · simp only [hrx, htx, uintD] at hfr hft ⊢
    have e1 : (rx0 + dr) % 2 ^ 64 = rx0 + dr := Nat.mod_eq_of_lt (by omega)
    have e2 : dt % 2 ^ 64 = dt := Nat.mod_eq_of_lt (by omega)
    unfold update_transmission_totals
    simp only [Store.get, trafficRx, trafficTx] at hrx htx
    simp only [trafficRx] at hokr
    simp only [trafficTx] at hokt
    simp [Store.get, Store.set, andThen, hrx, htx, ht, hokr, hokt, e1, e2,
      trafficRx, trafficTx]
    omega
  · exfalso
    rcases habs with h | h
    · rw [h] at hrx
      exact Option.noConfusion hrx
    · rw [h] at htx
      exact Option.noConfusion htx

/-- Witness for C3: rx totals key absent, tx totals key holding 20,
sample (150, 50): the accumulation succeeds and stores (150, 70) — the
missing rx value was treated as 0. -/
theorem accumulate_missing_totals_witness :
    (update_transmission_totals wStoreTxOnly wNetwork).1 = Except.ok () ∧
    ((update_transmission_totals wStoreTxOnly wNetwork).2).get trafficRx
      = some (Value.uint 150) ∧
    ((update_transmission_totals wStoreTxOnly wNetwork).2).get trafficTx
      = some (Value.uint 70) :=
  accumulate_missing_totals wStoreTxOnly wNetwork 150 50 (Or.inl (by decide))
    (Or.inr ⟨20, by decide⟩) (Or.inl (by decide)) (by decide) (by decide)
    (by decide) (by decide) (by decide)

/-- Claim C6: when the requested interface does not appear in the probe report,
`update_transmission_totals` fails with the probe error and the store it
leaves behind is exactly the store it was given: zero writes. -/
theorem accumulate_missing_interface (s : Store) (network : NetworkReport)
    (h : ∀ p ∈ network, p.1 ≠ "wlan0") :
    update_transmission_totals s network = (Except.error MErr.probe, s) := by
  have ht : Traffic.get network "wlan0" = none := by
    induction network with
    | nil => rfl
    | cons p rest ih =>
      obtain ⟨name, data⟩ := p
      have hname : name ≠ "wlan0" := h (name, data) (by simp)
      simp only [Traffic.get, hname, if_false]
      exact ih (fun q hq => h q (List.mem_cons_of_mem _ hq))
  unfold update_transmission_totals
  simp [ht]

/-- Witness for C6: a report listing only `"eth0"` makes the accumulation
fail and leave the store untouched. -/
theorem accumulate_missing_interface_witness :
    update_transmission_totals wStoreTotals wNetworkEth
      = (Except.error MErr.probe, wStoreTotals) :=
  accumulate_missing_interface wStoreTotals wNetworkEth (by decide)

/-- Claim C10: the two totals writes happen rx first: when both totals reads
yield unsigned integers and the rx write fails with a store error,
`update_transmission_totals` returns that error and the store is exactly
as before — in particular the tx totals key is untouched, no tx write
having been attempted. -/
theorem accumulate_rx_write_failure (s : Store) (network : NetworkReport)
    (rx0 tx0 : Nat) (t : Traffic)
    (hrx : s.get trafficRx = some (Value.uint rx0))
    (_htx : s.get trafficTx = some (Value.uint tx0))
    (ht : Traffic.get network "wlan0" = some t)
    (hfail : s.setOk trafficRx = false) :
    update_transmission_totals s network = (Except.error MErr.store, s) := by
  unfold update_transmission_totals
  simp only [Store.get, trafficRx] at hrx
  simp only [trafficRx] at hfail
  simp [Store.get, Store.set, andThen, hrx, ht, hfail, trafficRx, trafficTx]

/-- Witness for C10: on a store whose rx-totals writes fail, accumulation
with the wlan0 report returns the store error and changes nothing. -/
theorem accumulate_rx_write_failure_witness :
    update_transmission_totals wStoreRxWriteFails wNetwork
      = (Except.error MErr.store, wStoreRxWriteFails) :=
  accumulate_rx_write_failure wStoreRxWriteFails wNetwork 10 20
    { rx := 150, tx := 50 } (by decide) (by decide) (by decide) (by decide)

theorem uintOrAbsent_cases (o : Option Value) (h : uintOrAbsent o = true) :
    o = none ∨ ∃ n, o = some (Value.uint n) := by
  rcases o with _ | v
  · exact Or.inl rfl
  · cases v with
    | uint n => exact Or.inr ⟨n, rfl⟩
    | bool b => simp [uintOrAbsent] at h

/-- Claim C4, counterexample: `Thresholds::get` is not total over all store
states: when the `rx_warn` threshold key holds a boolean, nothing is
pushed for it, the vector has only three elements and the indexing
panics (modelled as `none`). -/
theorem thresholds_load_fails_on_nonuint :
    Thresholds.get wStoreBadThreshold = none := by decide

/-- Claim C4 as amended: whenever each of the four threshold keys is absent or
holds an unsigned integer, `Thresholds::get` returns a `Thresholds`
value, each absent key independently defaulted to 0 and each present key
read out; a present key of any other type makes the lookup panic. -/
theorem thresholds_load_total_of_uint (s : Store)
    (h1 : uintOrAbsent (s.get thRxWarn) = true)
    (h2 : uintOrAbsent (s.get thTxWarn) = true)
    (h3 : uintOrAbsent (s.get thRxCrit) = true)
    (h4 : uintOrAbsent (s.get thTxCrit) = true) :
    Thresholds.get s = some
      { rx_warn := uintD (s.get thRxWarn), tx_warn := uintD (s.get thTxWarn),
        rx_crit := uintD (s.get thRxCrit), tx_crit := uintD (s.get thTxCrit) } := by
  rcases uintOrAbsent_cases _ h1 with e1 | ⟨n1, e1⟩ <;>
  rcases uintOrAbsent_cases _ h2 with e2 | ⟨n2, e2⟩ <;>
  rcases uintOrAbsent_cases _ h3 with e3 | ⟨n3, e3⟩ <;>
  rcases uintOrAbsent_cases _ h4 with e4 | ⟨n4, e4⟩ <;>
    simp [Thresholds.get, e1, e2, e3, e4, uintD]

/-- Witness for C4 (amended): on a store with no threshold keys at all,
the load succeeds with all four thresholds defaulted to 0. -/
theorem thresholds_load_total_of_uint_witness :
    Thresholds.get wStoreEmpty = some
      { rx_warn := 0, tx_warn := 0, rx_crit := 0, tx_crit := 0 } :=
  thresholds_load_total_of_uint wStoreEmpty (by decide) (by decide) (by decide)
    (by decide)

theorem set_alert_flags_frame (s : Store) (th : Thresholds) (k : Key)
    (h1 : k ≠ alRxWarn) (h2 : k ≠ alRxCrit) (h3 : k ≠ alTxWarn) (h4 : k ≠ alTxCrit) :
    ((set_alert_flags s th).2).get k = s.get k := by
  unfold set_alert_flags
  rcases hr : set_rx_alert_flags s th with ⟨r1, t0⟩
  have ht0 : t0.get k = s.get k := by
    have h5 := set_rx_alert_flags_frame s th k h1 h2
    rw [hr] at h5
    exact h5
  cases r1 with
  | ok u =>
    simp only [andThen_ok]
    rw [set_tx_alert_flags_frame t0 th k h3 h4, ht0]
  | error e =>
    simp only [andThen_error]
    exact ht0

theorem daemonStep_frame (s : Store) (k : Key)
    (h1 : k ≠ alRxWarn) (h2 : k ≠ alRxCrit) (h3 : k ≠ alTxWarn) (h4 : k ≠ alTxCrit) :
    ((daemonStep s).2).get k = s.get k := by
  unfold daemonStep
  rcases hv : Thresholds.get s with _ | th
  · simp
  · simpa using set_alert_flags_frame s th k h1 h2 h3 h4

/-- Where the rx totals key can end up after one accumulation: absent
before (and then nothing is claimed), left exactly as it was, or bumped
by the sample's received count. -/
theorem update_rx_final (s : Store) (network : NetworkReport) :
    s.get trafficRx = none ∨
    ((update_transmission_totals s network).2).get trafficRx = s.get trafficRx ∨
    (∃ t rx0, Traffic.get network "wlan0" = some t ∧
      s.get trafficRx = some (Value.uint rx0) ∧
      ((update_transmission_totals s network).2).get trafficRx
        = some (Value.uint ((rx0 + t.rx) % 2 ^ 64))) := by
  unfold update_transmission_totals
  rcases htr : Traffic.get network "wlan0" with _ | t
  · right; left
    simp [htr]
  · rcases hrx : s.get trafficRx with _ | vrx
    · exact Or.inl rfl
    · cases vrx with
      | bool b =>
        right; left
        rcases htx : s.get trafficTx with _ | vtx
        · simp [htr, htx, hrx, andThen]
        · cases vtx <;> simp [htr, htx, hrx, andThen]
      | uint rx0 =>
        by_cases okr : s.setOk trafficRx = true
        · right; right
          refine ⟨t, rx0, rfl, rfl, ?_⟩
          rcases htx : s.get trafficTx with _ | vtx
          · simp [htr, htx, hrx, andThen, Store.set_of_setOk, okr, Store.get_set_2]
          · cases vtx <;> simp [htr, htx, hrx, andThen, Store.set_of_setOk, okr, Store.get_set_2]
        · right; left
          simp [htr, hrx, andThen, Store.set_of_fail, okr]

/-- Where the tx totals key can end up after one accumulation: absent
before, unchanged, or bumped by the sample's transmitted count. -/
theorem update_tx_final (s : Store) (network : NetworkReport) :
    s.get trafficTx = none ∨
    ((update_transmission_totals s network).2).get trafficTx = s.get trafficTx ∨
    (∃ t tx0, Traffic.get network "wlan0" = some t ∧
      s.get trafficTx = some (Value.uint tx0) ∧
      ((update_transmission_totals s network).2).get trafficTx
        = some (Value.uint ((tx0 + t.tx) % 2 ^ 64))) := by
  unfold update_transmission_totals
  rcases htr : Traffic.get network "wlan0" with _ | t
  · right; left
    simp [htr]
  · rcases htx : s.get trafficTx with _ | vtx
    · exact Or.inl rfl
    · cases vtx with
      | bool b =>
        right; left
        rcases hrx : s.get trafficRx with _ | vrx
        · by_cases okr : s.setOk trafficRx = true <;>
            simp [htr, htx, hrx, andThen, Store.set_of_setOk, Store.set_of_fail, okr]
        · cases vrx with
          | uint rx0 =>
            by_cases okr : s.setOk trafficRx = true <;>
              simp [htr, htx, hrx, andThen, Store.set_of_setOk, Store.set_of_fail, okr]
          | bool b2 => simp [htr, htx, hrx, andThen]
      | uint tx0 =>
        rcases hrx : s.get trafficRx with _ | vrx
        · by_cases okr : s.setOk trafficRx = true
          · by_cases okt : s.setOk trafficTx = true
            · right; right
              refine ⟨t, tx0, rfl, rfl, ?_⟩
              simp [htr, htx, hrx, andThen, Store.set_of_setOk, okr, okt,
                Store.get_set_2]
            · right; left
              simp [htr, htx, hrx, andThen, Store.set_of_setOk, Store.set_of_fail,
                okr, okt]
          · right; left
            simp [htr, htx, hrx, andThen, Store.set_of_fail, okr]
        · cases vrx with
          | uint rx0 =>
            by_cases okr : s.setOk trafficRx = true
            · by_cases okt : s.setOk trafficTx = true
              · right; right
                refine ⟨t, tx0, rfl, rfl, ?_⟩
                simp [htr, htx, hrx, andThen, Store.set_of_setOk, okr, okt,
                  Store.get_set_2]
              · right; left
                simp [htr, htx, hrx, andThen, Store.set_of_setOk, Store.set_of_fail,
                  okr, okt]
            · right; left
              simp [htr, htx, hrx, andThen, Store.set_of_fail, okr]
          | bool b2 =>
            by_cases okt : s.setOk trafficTx = true
            · right; right
              refine ⟨t, tx0, rfl, rfl, ?_⟩
              simp [htr, htx, hrx, andThen, Store.set_of_setOk, okt, Store.get_set_2]
            · right; left
              simp [htr, htx, hrx, andThen, Store.set_of_fail, okt]

/-- Claim C9: none of the core operations decrements or deletes a stored
total: `set_alert_flags` and a daemon iteration leave both totals keys
exactly as they were, and `update_transmission_totals` leaves each
totals key present with a value at least as large as before (given the
source's assumption that the 64-bit additions do not overflow).
`Thresholds::get` performs no store writes at all (it is a function of
the store returning only a `Thresholds` value). -/
theorem totals_monotone (s : Store) (network : NetworkReport) (th : Thresholds)
    (hfit : ∀ t, Traffic.get network "wlan0" = some t →
      (∀ r, s.get trafficRx = some (Value.uint r) → r + t.rx < 2 ^ 64) ∧
      (∀ x, s.get trafficTx = some (Value.uint x) → x + t.tx < 2 ^ 64)) :
    TotalsMono s (update_transmission_totals s network).2 ∧
    TotalsMono s (set_alert_flags s th).2 ∧
    TotalsMono s (daemonStep s).2 := by
  have monoEq : ∀ s2 : Store, s2.get trafficRx = s.get trafficRx →
      s2.get trafficTx = s.get trafficTx → TotalsMono s s2 := by
    intro s2 er et
    exact ⟨fun v hv => ⟨v, by rw [er, hv]⟩,
      fun r hr => ⟨r, by rw [er, hr], le_refl r⟩,
      fun v hv => ⟨v, by rw [et, hv]⟩,
      fun x hx => ⟨x, by rw [et, hx], le_refl x⟩⟩
  refine ⟨?_,
    monoEq _ (set_alert_flags_frame s th trafficRx (by decide) (by decide) (by decide)
      (by decide))
      (set_alert_flags_frame s th trafficTx (by decide) (by decide) (by decide) (by decide)),
    monoEq _ (daemonStep_frame s trafficRx (by decide) (by decide) (by decide) (by decide))
      (daemonStep_frame s trafficTx (by decide) (by decide) (by decide) (by decide))⟩
  rcases update_rx_final s network with hr0 | hr0 | ⟨t, rx0, ht, hrx, hfin⟩ <;>
    rcases update_tx_final s network with ht0 | ht0 | ⟨t2, tx0, ht2, htx, hfin2⟩ <;>
      refine ⟨?_, ?_, ?_, ?_⟩ <;> intro a ha
  all_goals
    first
    | (rw [hr0] at ha; exact Option.noConfusion ha)
    | (rw [ht0] at ha; exact Option.noConfusion ha)
    | (refine ⟨a, ?_, le_refl a⟩; rw [hr0, ha])
    | (refine ⟨a, ?_, le_refl a⟩; rw [ht0, ha])
    | (refine ⟨a, ?_⟩; rw [hr0, ha])
    | (refine ⟨a, ?_⟩; rw [ht0, ha])
    | exact ⟨_, hfin⟩
    | exact ⟨_, hfin2⟩
    | (rw [ha] at hrx;
       simp only [Option.some.injEq, Value.uint.injEq] at hrx;
       subst hrx;
       refine ⟨_, hfin, ?_⟩;
       rw [Nat.mod_eq_of_lt ((hfit t ht).1 _ ha)];
       omega)
    | (rw [ha] at htx;
       simp only [Option.some.injEq, Value.uint.injEq] at htx;
       subst htx;
       refine ⟨_, hfin2, ?_⟩;
       rw [Nat.mod_eq_of_lt ((hfit t2 ht2).2 _ ha)];
       omega)

/-- Witness for C9: scenario-A store and sample; all three operations
respect the monotonicity relation. -/
theorem totals_monotone_witness :
    TotalsMono wStoreA (update_transmission_totals wStoreA wNetwork).2 ∧
    TotalsMono wStoreA (set_alert_flags wStoreA wThresholds).2 ∧
    TotalsMono wStoreA (daemonStep wStoreA).2 := by
  refine totals_monotone wStoreA wNetwork wThresholds ?_
  intro t ht
  have hw : Traffic.get wNetwork "wlan0" = some { rx := 150, tx := 50 } := by decide
  rw [hw] at ht
  have ht2 : t = { rx := 150, tx := 50 } := (Option.some_inj.mp ht).symm
  subst ht2
  constructor
  · intro r hr
    have e : wStoreA.get trafficRx = some (Value.uint 150) := by decide
    rw [e] at hr
    simp only [Option.some.injEq, Value.uint.injEq] at hr
    subst hr
    decide
  · intro x hx
    have e : wStoreA.get trafficTx = some (Value.uint 50) := by decide
    rw [e] at hx
    simp only [Option.some.injEq, Value.uint.injEq] at hx
    subst hx
    decide

/-! The daemon loop: one-step unfolding lemmas and the cancellation
behaviour. -/

theorem daemonLoop_succ (running : Nat → Bool) (fuel k : Nat) (s : Store) :
    daemonLoop running (fuel + 1) k s =
      if running k then
        match daemonStep s with
        | (Except.ok _, s1) => daemonLoop running fuel (k + 1) s1
        | (Except.error e, s1) => DaemonResult.crashed e s1 k
      else DaemonResult.finished s k := rfl

theorem daemonLoop_step_true (running : Nat → Bool) (fuel k : Nat) (s : Store)
    (h : running k = true) :
    daemonLoop running (fuel + 1) k s =
      match daemonStep s with
      | (Except.ok _, s1) => daemonLoop running fuel (k + 1) s1
      | (Except.error e, s1) => DaemonResult.crashed e s1 k := by
  simp [daemonLoop_succ, h]

theorem daemonLoop_step_false (running : Nat → Bool) (fuel k : Nat) (s : Store)
    (h : running k = false) :
    daemonLoop running (fuel + 1) k s = DaemonResult.finished s k := by
  simp [daemonLoop_succ, h]

/-- Generalised cancellation run: if the flag reads `true` at the checks
before the first `n` iterations and `false` at the check after them, and
those `n` iteration bodies all succeed, the loop performs exactly those
`n` bodies and finishes, whatever fuel remains. -/
theorem daemonLoop_run_aux (running : Nat → Bool) (m : Nat) :
    ∀ (n k : Nat) (s s2 : Store),
      (∀ j, j < n → running (k + j) = true) → running (k + n) = false →
      iterSteps n s = some s2 →
      daemonLoop running (n + m + 1) k s = DaemonResult.finished s2 (k + n) := by
  intro n
  induction n with
  | zero =>
    intro k s s2 hT hF hI
    have hI2 : s = s2 := by simpa [iterSteps] using hI
    subst hI2
    have hF2 : running k = false := by simpa using hF
    have e : 0 + m + 1 = m + 1 := by omega
    rw [e, daemonLoop_step_false running m k s hF2]
    simp
  | succ n ih =>
    intro k s s2 hT hF hI
    have h0 : running k = true := by simpa using hT 0 (Nat.succ_pos n)
    rcases hD : daemonStep s with ⟨r1, s1⟩
    cases r1 with
    | error e =>
      rw [iterSteps, hD] at hI
      cases hI
    | ok u =>
      cases u
      rw [iterSteps, hD] at hI
      have hT2 : ∀ j, j < n → running (k + 1 + j) = true := by
        intro j hj
        have e : k + 1 + j = k + (j + 1) := by omega
        rw [e]
        exact hT (j + 1) (by omega)
      have hF2 : running (k + 1 + n) = false := by
        have e : k + 1 + n = k + (n + 1) := by omega
        rw [e]
        exact hF
      have e : n + 1 + m + 1 = (n + m + 1) + 1 := by omega
      rw [e, daemonLoop_step_true running (n + m + 1) k s h0, hD]
      have e2 : k + (n + 1) = (k + 1) + n := by omega
      rw [e2]
      exact ih (k + 1) s1 s2 hT2 hF2 hI

/-- Claim C8: for every point at which the cancellation flag is observed set
(the `n`-th iteration-boundary check is the first to read `false`), the
daemon loop runs exactly the `n` iteration bodies before it, then exits
gracefully, whatever fuel (time) remains; the final store is the one
after those `n` bodies, so no alert-flag write happens after the check
that observes the flag.  The flag is only read at iteration boundaries,
so an iteration in progress (including its sleep) always completes. -/
theorem daemon_cancellation_graceful (running : Nat → Bool) (n m : Nat)
    (s s2 : Store)
    (hTrue : ∀ j, j < n → running j = true)
    (hFalse : running n = false)
    (hSteps : iterSteps n s = some s2) :
    daemonLoop running (n + m + 1) 0 s = DaemonResult.finished s2 n := by
  have h := daemonLoop_run_aux running m n 0 s s2
    (by intro j hj; simpa using hTrue j hj) (by simpa using hFalse) hSteps
  simpa using h

/-- Witness for C8: on the scenario-A store with the signal observed at
the second check, the loop runs exactly one evaluation and finishes. -/
theorem daemon_cancellation_graceful_witness :
    ∃ s2, iterSteps 1 wStoreA = some s2 ∧
      daemonLoop wRunningOnce 3 0 wStoreA = DaemonResult.finished s2 1 := by
  obtain ⟨s2, hs⟩ : ∃ s2, iterSteps 1 wStoreA = some s2 := ⟨_, rfl⟩
  refine ⟨s2, hs, ?_⟩
  exact daemon_cancellation_graceful wRunningOnce 1 1 wStoreA s2
    (by intro j hj; have hj0 : j = 0 := by omega
        subst hj0; decide)
    (by decide) hs

/-- Claim C7, evidence of the divergence: a store error inside an evaluation
cycle is not caught at the loop boundary: with the flag never set, a
daemon tick on a store whose totals keys are absent panics out of the
loop (the `unwrap` in `set_alert_flags`), terminating the daemon instead
of continuing to the next tick. -/
theorem daemon_store_error_terminates :
    daemonLoop wRunningForever 5 0 wStoreEmpty
      = DaemonResult.crashed MErr.store wStoreEmpty 0 := rfl

end PeachMonitor
